import Mathlib

/-!
Verification development for the uws-reverse-proxy repository.

Shallow embedding of the components the claims are about:
  * the HTTP/1.1 response parser (src/http/1.1/Parser, byte-at-a-time state machine),
  * the request sender (src/http/1.1/Sender),
  * the connection pool client (src/http/Client),
  * the connection reopen logic (src/http/Connection),
  * the proxy error-response path (src/UWSProxy + src/utils/uwsHelpers).

JavaScript-specific semantics that matter to the claims are modelled explicitly:
objects are insertion-ordered association lists, `undefined` and `NaN` are `none` in
`Option`, string truthiness treats the empty string as false, and `Object.assign`
copies properties whose value is `undefined`.
-/

namespace UwsProxy

-- region Byte and JS-number utilities

/-- ASCII byte list of a Lean string literal. -/
def strBytes (s : String) : List Nat := s.toList.map Char.toNat

/-- ASCII lower-casing of one byte, as String.prototype.toLowerCase does on ASCII. -/
def byteToLower (b : Nat) : Nat := if 65 ≤ b ∧ b ≤ 90 then b + 32 else b

/-- ASCII lower-casing of a byte string. -/
def toLowerBytes (s : List Nat) : List Nat := s.map byteToLower

def isDigitByte (b : Nat) : Bool := decide (48 ≤ b ∧ b ≤ 57)

def isHexByte (b : Nat) : Bool :=
  isDigitByte b || decide (97 ≤ b ∧ b ≤ 102) || decide (65 ≤ b ∧ b ≤ 70)

def digitVal (b : Nat) : Nat := b - 48

def hexVal (b : Nat) : Nat :=
  if isDigitByte b then b - 48 else if 97 ≤ b then b - 87 else b - 55

def natOfDigits (base : Nat) (f : Nat → Nat) (l : List Nat) : Nat :=
  l.foldl (fun acc b => acc * base + f b) 0

/-- JS Number(string) on the symbols the parser accumulates: the empty string is 0,
a digit string is its value, anything else is NaN (modelled as none). -/
def jsNumber (s : List Nat) : Option Nat :=
  if s.isEmpty then some 0
  else if s.all isDigitByte then some (natOfDigits 10 digitVal s) else none

/-- JS Number.parseInt(s): value of the leading decimal digits, NaN (none) if there are none. -/
def jsParseIntDec (s : List Nat) : Option Nat :=
  let ds := s.takeWhile isDigitByte
  if ds.isEmpty then none else some (natOfDigits 10 digitVal ds)

/-- JS Number.parseInt(s, 16): value of the leading hexadecimal digits, NaN (none) if none. -/
def jsParseIntHex (s : List Nat) : Option Nat :=
  let ds := s.takeWhile isHexByte
  if ds.isEmpty then none else some (natOfDigits 16 hexVal ds)

/-- JS comparison a < n where a may be NaN or undefined (none): those compare false. -/
def jsLt (a : Option Nat) (n : Nat) : Bool :=
  match a with
  | none => false
  | some v => v < n

/-- JS strict equality a === n for a possibly NaN or undefined left operand. -/
def jsEq (a : Option Nat) (n : Nat) : Bool :=
  match a with
  | none => false
  | some v => v = n

-- endregion

-- region JS objects as insertion-ordered association lists

/-- Value stored in the header object of the parser: a string while the header block is
being read, a number once content-length has been run through Number.parseInt
(none is NaN). -/
inductive HVal where
  | str (s : List Nat)
  | num (n : Option Nat)
deriving DecidableEq, Repr

/-- String view of a header value, as JS coercion would give for the values that occur. -/
def HVal.asStr : HVal → List Nat
  | .str s => s
  | .num _ => []

abbrev HObj := List (List Nat × HVal)

/-- JS property write obj[k] = v: updates in place, or appends a new key at the end. -/
def objSet : HObj → List Nat → HVal → HObj
  | [], k, v => [(k, v)]
  | (k0, v0) :: rest, k, v =>
    if k0 = k then (k, v) :: rest else (k0, v0) :: objSet rest k v

/-- JS property read obj[k], undefined (none) when absent. -/
def objGet? : HObj → List Nat → Option HVal
  | [], _ => none
  | (k0, v0) :: rest, k => if k0 = k then some v0 else objGet? rest k

/-- JS `k in obj` test. -/
def objHas (m : HObj) (k : List Nat) : Bool := (objGet? m k).isSome

/-- JS `delete obj[k]`. -/
def objDel : HObj → List Nat → HObj
  | [], _ => []
  | (k0, v0) :: rest, k => if k0 = k then rest else (k0, v0) :: objDel rest k

/-- Whether pat occurs as a contiguous sublist of l (JS indexOf(pat) !== -1). -/
def containsSub (pat l : List Nat) : Bool :=
  match l with
  | [] => pat.isEmpty
  | _ :: rest => pat.isPrefixOf l || containsSub pat rest

-- endregion

-- region HTTP/1.1 response parser (src/http/1.1/Parser)

/-- Body read modes announced by the parser. -/
inductive BodyMode where
  | untilClose
  | fixed
  | chunked
deriving DecidableEq, Repr

/-- Fatal parser error codes. -/
inductive PErr where
  | invalidContentLength
  | invalidChunkSize
deriving DecidableEq, Repr

/-- Events emitted by the parser, in emission order. -/
inductive PEvent where
  | headersEvt (headers : HObj) (statusCode : Option Nat)
      (statusMessage : List Nat) (version : List Nat)
  | readMode (mode : BodyMode) (len : Option Nat)
  | bodyChunk (bytes : List Nat) (isLast : Bool)
  | errorEvt (code : PErr)
  | resetEvt
deriving DecidableEq, Repr

/-- Mirror of the _completed flag record of the parser. -/
structure PCompleted where
  version : Bool := false
  statusCode : Bool := false
  statusMessage : Bool := false
  headers : Bool := false
  body : Bool := false
  chunkHeader : Bool := false
  chunkBody : Bool := false
  chunkExt : Bool := false
deriving DecidableEq, Repr

/-- Parser state, one field per mutable field of the Parser class; undefined is none. -/
structure PState where
  headers : HObj := []
  completed : PCompleted := {}
  statusCode : Option Nat := some 0
  statusMessage : List Nat := []
  version : List Nat := []
  currentSymbol : List Nat := []
  currentHeaderName : List Nat := []
  eolCount : Nat := 0
  prevByte : Option Nat := none
  bodyChunked : Bool := false
  bodyLength : Option Nat := none
  bodyRead : Nat := 0
  bodyChunkRead : Nat := 0
  bodyChunkSize : Option Nat := none
deriving DecidableEq, Repr

/-- Initial parser state; the private _reset method restores exactly this state. -/
def PState.initial : PState := {}

/-- Outcome of processing the byte at index i of a fed slice: successor state, events
emitted during the iteration, extra index advance beyond the loop increment, and
whether feed returned early. -/
structure StepOut where
  state : PState
  events : List PEvent
  jump : Nat := 0
  stop : Bool := false

/-- End-of-headers processing, run when the second end-of-line is encountered:
transfer-encoding and content-length normalisation, body_read_mode notification,
headers event (in source order, lines 192-251 of the Parser). -/
def endOfHeaders (s0 : PState) : PState × List PEvent :=
  let teKey := strBytes "transfer-encoding"
  let clKey := strBytes "content-length"
  let s :=
    match objGet? s0.headers teKey with
    | some v =>
      let tv := toLowerBytes v.asStr
      { s0 with
        headers := objDel (objSet s0.headers teKey (.str tv)) clKey
        bodyLength := none
        bodyChunked := containsSub (strBytes "chunked") tv }
    | none => s0
  let (s, evs1) :=
    if !s.bodyChunked && objHas s.headers clKey then
      let parsed := jsParseIntDec ((objGet? s.headers clKey).getD (.str [])).asStr
      let s1 := { s with headers := objSet s.headers clKey (.num parsed) }
      let (s2, evs) :=
        if parsed = none then
          (PState.initial, [PEvent.errorEvt .invalidContentLength, PEvent.resetEvt])
        else (s1, ([] : List PEvent))
      let bl :=
        match objGet? s2.headers clKey with
        | some (.num (some n)) => some n
        | _ => none
      ({ s2 with bodyLength := bl }, evs)
    else (s, [])
  let evs2 :=
    if !s.bodyChunked && s.bodyLength = none then [PEvent.readMode .untilClose none]
    else if s.bodyChunked then [PEvent.readMode .chunked none]
    else if s.bodyLength ≠ none then [PEvent.readMode .fixed s.bodyLength]
    else []
  let s := { s with currentHeaderName := [] }
  (s, evs1 ++ evs2 ++ [PEvent.headersEvt s.headers s.statusCode s.statusMessage s.version])

/-- One iteration of the feed loop of the Parser (lines 119-410), processing the byte
at index i of data. -/
def stepByte (s0 : PState) (data : List Nat) (i : Nat) : StepOut :=
  let byte := data.getD i 0
  let prevByte := s0.prevByte
  let s : PState := { s0 with prevByte := some byte }
  if !s.completed.headers then
    if !s.completed.version then
      if byte = 32 then
        { state := { s with version := s.currentSymbol
                            completed := { s.completed with version := true }
                            currentSymbol := [] }
          events := [] }
      else
        { state := { s with currentSymbol := s.currentSymbol ++ [byte] }, events := [] }
    else if !s.completed.statusCode then
      if byte = 32 then
        let sc := jsNumber s.currentSymbol
        let s := { s with statusCode := sc
                          completed := { s.completed with statusCode := true }
                          currentSymbol := [] }
        if jsLt sc 200 || jsEq sc 204 || jsEq sc 304
            || (jsEq sc 302 && s.bodyLength = none)
            || (jsEq sc 307 && s.bodyLength = none) then
          { state := { s with bodyLength := some 0
                              completed := { s.completed with body := true } }
            events := [] }
        else
          { state := s, events := [] }
      else
        { state := { s with currentSymbol := s.currentSymbol ++ [byte] }, events := [] }
    else if !s.completed.statusMessage then
      if byte = 10 && prevByte = some 13 then
        { state := { s with statusMessage := s.currentSymbol
                            completed := { s.completed with statusMessage := true }
                            currentSymbol := [] }
          events := [] }
      else if byte ≠ 13 then
        { state := { s with currentSymbol := s.currentSymbol ++ [byte] }, events := [] }
      else
        { state := s, events := [] }
    else
      -- header lines
      if byte = 58 then
        let s := { s with eolCount := 0 }
        if s.currentHeaderName ≠ [] then
          { state := { s with currentSymbol := s.currentSymbol ++ [58] }, events := [] }
        else
          let name := toLowerBytes s.currentSymbol
          { state := { s with currentHeaderName := name
                              currentSymbol := []
                              headers := objSet s.headers name (.str []) }
            events := [] }
      else if byte = 13 then
        { state := s, events := [] }
      else if byte = 10 then
        let n := s.eolCount + 1
        if n = 1 then
          { state := { s with eolCount := 1
                              headers := objSet s.headers s.currentHeaderName (.str s.currentSymbol)
                              currentHeaderName := []
                              currentSymbol := [] }
            events := [] }
        else if n = 2 then
          let (s1, evs) := endOfHeaders
            { s with eolCount := 0, completed := { s.completed with headers := true } }
          { state := s1, events := evs }
        else
          { state := { s with eolCount := n }, events := [] }
      else
        let s := { s with eolCount := 0 }
        if s.currentSymbol = [] && byte = 32 && prevByte = some 58 then
          { state := s, events := [] }
        else
          { state := { s with currentSymbol := s.currentSymbol ++ [byte] }, events := [] }
  else if s.bodyLength = some 0 then
    -- no body: terminating empty chunk then internal reset
    { state := PState.initial, events := [PEvent.bodyChunk [] true] }
  else if s.bodyChunked then
    if s.completed.chunkBody then
      if byte = 13 then { state := s, events := [] }
      else if byte = 10 then
        { state := { s with completed := { s.completed with chunkHeader := false
                                                            chunkBody := false
                                                            chunkExt := false }
                            bodyChunkRead := 0
                            bodyChunkSize := none
                            currentSymbol := [] }
          events := [] }
      else { state := s, events := [] }
    else if !s.completed.chunkHeader then
      if byte = 13 then { state := s, events := [] }
      else if byte = 59 then
        { state := { s with completed := { s.completed with chunkExt := true } }, events := [] }
      else if byte = 10 then
        let s := { s with eolCount := s.eolCount + 1
                          completed := { s.completed with chunkHeader := true } }
        if s.currentSymbol.isEmpty then
          { state := PState.initial
            events := [PEvent.errorEvt .invalidChunkSize, PEvent.resetEvt]
            stop := true }
        else
          match jsParseIntHex s.currentSymbol with
          | none =>
            { state := PState.initial
              events := [PEvent.errorEvt .invalidChunkSize, PEvent.resetEvt]
              stop := true }
          | some size =>
            let s := { s with bodyChunkSize := some size, currentSymbol := [] }
            if size = 0 then
              { state := PState.initial, events := [PEvent.bodyChunk [] true] }
            else
              { state := s, events := [] }
      else
        if !s.completed.chunkExt then
          { state := { s with currentSymbol := s.currentSymbol ++ [byte] }, events := [] }
        else
          { state := s, events := [] }
    else if !s.completed.chunkBody then
      let s := { s with eolCount := 0 }
      let remains := s.bodyChunkSize.getD 0 - s.bodyChunkRead
      let d := min (data.length - i) remains
      if d = 0 then
        { state := s, events := [], stop := true }
      else
        let s := { s with bodyRead := s.bodyRead + d, bodyChunkRead := s.bodyChunkRead + d }
        let s :=
          if s.bodyChunkRead = s.bodyChunkSize.getD 0 then
            { s with completed := { s.completed with chunkBody := true } }
          else s
        { state := s
          events := [PEvent.bodyChunk ((data.drop i).take d) false]
          jump := d }
    else
      { state :=
          if byte = 10 then { s with eolCount := s.eolCount + 1 } else s
        events := [] }
  else if s.bodyLength ≠ none then
    let bl := s.bodyLength.getD 0
    let remains := bl - s.bodyRead
    let d := min (data.length - i) remains
    let s := { s with bodyRead := s.bodyRead + d }
    let isLast := s.bodyRead = bl
    if d > 0 then
      { state := if isLast then PState.initial else s
        events := [PEvent.bodyChunk ((data.drop i).take d) isLast]
        jump := d }
    else
      { state := s, events := [] }
  else
    -- UNTIL_CLOSE: emits the whole fed slice, and does not advance past it
    { state := s, events := [PEvent.bodyChunk data false] }

/-- Fuel-driven feed loop; feed calls it with fuel data.length + 1, which is never
exhausted because every iteration advances i by at least one. -/
def feedLoop : Nat → PState → List Nat → Nat → PState × List PEvent
  | 0, s, _, _ => (s, [])
  | Nat.succ fuel, s, data, i =>
    if i < data.length then
      let out := stepByte s data i
      if out.stop then (out.state, out.events)
      else
        let rest := feedLoop fuel out.state data (i + out.jump + 1)
        (rest.1, out.events ++ rest.2)
    else (s, [])

/-- Parser.feed: consume one contiguous slice of response bytes, returning the new
parser state and the events emitted, in order. -/
def feed (s : PState) (data : List Nat) : PState × List PEvent :=
  if data.length = 0 then (s, [])
  else feedLoop (data.length + 1) s data 0

/-- Feed several slices in order to the same parser, collecting all events. -/
def feedAll (s : PState) (slices : List (List Nat)) : PState × List PEvent :=
  slices.foldl (fun acc d => let r := feed acc.1 d; (r.1, acc.2 ++ r.2)) (s, [])

-- endregion

-- region Proxy error responses (src/UWSProxy #buildErrorResponse / #tryToSendErrorResponse,
-- src/utils/uwsHelpers writeHeaders)

/-- A JS value that is either a string or undefined, as stored in the error-response
object; Object.assign copies undefined-valued properties. -/
inductive JStr where
  | str (s : String)
  | undef
deriving DecidableEq, Repr

abbrev JObj := List (String × JStr)

/-- JS property write on a string-keyed object, insertion-ordered. -/
def jobjSet : JObj → String → JStr → JObj
  | [], k, v => [(k, v)]
  | (k0, v0) :: rest, k, v =>
    if k0 = k then (k, v) :: rest else (k0, v0) :: jobjSet rest k v

/-- JS `delete obj[k]` on a string-keyed object. -/
def jobjDel : JObj → String → JObj
  | [], _ => []
  | (k0, v0) :: rest, k => if k0 = k then rest else (k0, v0) :: jobjDel rest k

/-- Object.assign({}, a, b): properties of b (undefined values included) overwrite a. -/
def jsAssign (a b : JObj) : JObj := b.foldl (fun acc p => jobjSet acc p.1 p.2) a

/-- Error codes reaching the proxy error translator. -/
inductive ProxyErr where
  | econnreset
  | econnaborted
  | econnrefused
  | ebodystream
  | etimedout
  | erecipientaborted
  | other
deriving DecidableEq, Repr

def ProxyErr.codeText : ProxyErr → String
  | .econnreset => "ECONNRESET"
  | .econnaborted => "ECONNABORTED"
  | .econnrefused => "ECONNREFUSED"
  | .ebodystream => "EBODYSTREAM"
  | .etimedout => "ETIMEDOUT"
  | .erecipientaborted => "ERECIPIENTABORTED"
  | .other => "EUNKNOWN"

/-- The UWSProxyErrorResponse object as #buildErrorResponse actually fills it:
body and headers are set, the top-level status field is left undefined. -/
structure ErrorResponse where
  headers : JObj
  body : JStr
  status : JStr
deriving DecidableEq, Repr

/-- UWSProxy.#buildErrorResponse: switch on the error code. The 503 and 504 and 502
status lines are written into headers.status (headers "status code" in the default
case); the top-level status stays undefined. -/
def buildErrorResponse (timeoutMs : Nat) (code : ProxyErr) : ErrorResponse :=
  match code with
  | .econnreset | .econnaborted | .econnrefused =>
    { headers := [("status", .str "503 Service Unavailable")]
      body := .str ("Unable to forward the request to the server (" ++ code.codeText ++ ").")
      status := .undef }
  | .ebodystream =>
    { headers := [("status", .str "503 Service Unavailable")]
      -- the handleRequest wrapper reads original_code before it is ever set, so the
      -- interpolation renders the string "undefined"
      body := .str ("Unable to forward your request body to the server ("
        ++ code.codeText ++ ": undefined).")
      status := .undef }
  | .etimedout =>
    { headers := [("status", .str "504 Gateway Timeout")]
      body := .str ("No response received from the server in " ++ toString timeoutMs
        ++ "ms: request aborted (" ++ code.codeText ++ ").")
      status := .undef }
  | .erecipientaborted =>
    { headers := [("status", .str "502 Bad Gateway")]
      body := .str ("The recipient server aborted the proxy request (" ++ code.codeText ++ ").")
      status := .undef }
  | .other =>
    { headers := [("status code", .str "502 Bad Gateway")]
      body := .str ("The proxy received a malformed or incomplete response from the server,"
        ++ " or encountered a non-handled error (" ++ code.codeText ++ ").")
      status := .undef }

/-- Observable writes made on a uWebSockets.js response handle. Writing no status at
all leaves the edge default (200 OK) in force. -/
structure UwsWrites where
  status : Option String := none
  headerWrites : List (String × String) := []
  ended : Option String := none
deriving DecidableEq, Repr

/-- The forEach part of writeHeaders: write each remaining header in order; calling
toString on an undefined value throws at its turn, keeping the writes already made. -/
def writeHeaderSeq (w : UwsWrites) : JObj → UwsWrites × Bool
  | [] => (w, false)
  | (_, .undef) :: _ => (w, true)
  | (k0, .str v0) :: r => writeHeaderSeq { w with headerWrites := w.headerWrites ++ [(k0, v0)] } r

/-- writeHeaders of uwsHelpers run on a header object: look for a status or
"status code" key and write it first, then write the remaining headers. Accessing
toString on an undefined value throws; the thrown flag carries whether that
happened, with all writes made before the throw kept. -/
def writeHeadersModel (w : UwsWrites) (headers : JObj) : UwsWrites × Bool :=
  let isStatusKey := fun (k : String) =>
    toLowerBytes (strBytes k) = strBytes "status"
      || toLowerBytes (strBytes k) = strBytes "status code"
  match headers.find? (fun p => isStatusKey p.1) with
  | some (_, .undef) =>
    -- headers[key].toString() on undefined throws before writeStatus is reached
    (w, true)
  | some (k, .str v) =>
    writeHeaderSeq { w with status := some v } (jobjDel headers k)
  | none =>
    writeHeaderSeq w headers

/-- UWSProxy.#tryToSendErrorResponse: destructure {headers, body, status}, call
writeHeaders with Object.assign({}, headers, {status}) swallowing any throw, then
cork-end the body (the fresh response accepts it). -/
def tryToSendErrorResponse (w : UwsWrites) (resp : ErrorResponse) : UwsWrites :=
  let merged := jsAssign resp.headers [("status", resp.status)]
  let (w1, _threw) := writeHeadersModel w merged
  { w1 with ended := some (match resp.body with | .str s => s | .undef => "undefined") }

/-- Error delivery with no user error handler configured
(UWSProxy.#tryToRespondToError): build the default response and try to send it. -/
def deliverErrorResponse (timeoutMs : Nat) (code : ProxyErr) : UwsWrites :=
  tryToSendErrorResponse {} (buildErrorResponse timeoutMs code)

-- endregion

-- region Request sender body streaming (src/http/1.1/Sender)

/-- Content-length header value as carried on a request: the code compares it with
=== 0, so a string "0" and the number 0 differ. -/
inductive CLVal where
  | num (n : Nat)
  | str (s : String)
deriving DecidableEq, Repr

/-- The request fields Sender._stream consults before subscribing to the body. -/
structure SenderRequest where
  hasBody : Bool
  contentLength : Option CLVal
  hasTransferEncoding : Bool
deriving DecidableEq, Repr

/-- Guard sequence of Sender._stream (lines 135-150): returns true exactly when the
method reaches body.onData, i.e. subscribes to the request body source. -/
def streamSubscribes (r : SenderRequest) : Bool :=
  if !r.hasBody then false
  else if r.contentLength = some (.num 0) then false
  else if !r.hasTransferEncoding then false
  else true

/-- The streaming context object of Sender._stream. -/
structure SendCtx where
  backpressure : Bool := false
  written : Nat := 0
  stackedBuffers : List (List Nat) := []
deriving DecidableEq, Repr

/-- Methods the uWebSockets.js reply handle actually exposes for responding, per the
edge surface the repo programs against (statuses are written with writeStatus in
uwsHelpers, Pipeline and UWSProxy); there is no setStatus method. -/
def uwsReplyHas (method : String) : Bool :=
  method = "writeStatus" || method = "writeHeader" || method = "write"
    || method = "tryEnd" || method = "end" || method = "cork" || method = "close"
    || method = "onData" || method = "onAborted" || method = "onWritable"
    || method = "getWriteOffset" || method = "getRemoteAddressAsText"

/-- Observable effect of the 504 block on the edge reply handle. -/
structure Reply504Attempt where
  corkCalls : Nat := 0
  setStatusThrown : Nat := 0
  statusWritten : Option String := none
  ended : Option String := none
deriving DecidableEq, Repr

/-- The cork callback of the 504 block of Sender._stream (lines 164-167): call
body.setStatus with the 504 line, then body.end with the busy message. Calling a
method the reply handle does not have throws a TypeError, aborting the callback at
that point, so the end call is only reached if setStatus exists. -/
def cork504 (r : Reply504Attempt) : Reply504Attempt :=
  let r := { r with corkCalls := r.corkCalls + 1 }
  if uwsReplyHas "setStatus" then
    { r with statusWritten := some "504 Gateway Timeout"
             ended := some "The server is too busy to handle your request." }
  else
    { r with setStatusThrown := r.setStatusThrown + 1 }

/-- Sender._trySendChunk in the regime where the socket never drains: writeOk is
what socket.write returns for a fresh write. Returns the new context and the sent
flag. Under backpressure the chunk is pushed onto the FIFO unconditionally. -/
def trySendChunk (writeOk : Bool) (ctx : SendCtx) (chunk : List Nat) : SendCtx × Bool :=
  if !ctx.backpressure then
    if writeOk then ({ ctx with written := ctx.written + chunk.length }, true)
    else ({ ctx with backpressure := true }, false)
  else
    ({ ctx with stackedBuffers := ctx.stackedBuffers ++ [chunk] }, false)

/-- The onData handler installed by Sender._stream (lines 159-169): try to send,
then run the 504 cork block when not sent and the FIFO has reached
maxStackedBuffers. -/
def senderOnData (maxStackedBuffers : Nat) (writeOk : Bool)
    (st : SendCtx × Reply504Attempt) (chunk : List Nat) : SendCtx × Reply504Attempt :=
  let (ctx, sent) := trySendChunk writeOk st.1 chunk
  if !sent && ctx.stackedBuffers.length ≥ maxStackedBuffers then
    (ctx, cork504 st.2)
  else
    (ctx, st.2)

/-- A run of body chunks delivered while the socket never accepts a write and never
drains (worst-case backpressure). -/
def senderRun (maxStackedBuffers : Nat) (chunks : List (List Nat)) : SendCtx × Reply504Attempt :=
  chunks.foldl (senderOnData maxStackedBuffers false) ({}, {})

-- endregion

-- region Connection reopen logic (src/http/Connection)

/-- The _reopenAttempts field: declared without initializer, so it is undefined until
the first successful connect sets it to 0; undefined++ yields NaN. Both undefined
and NaN are none, since both compare false under >= and both increment to NaN. -/
abbrev ReopenCounter := Option Nat

/-- JS comparison a >= n with undefined or NaN on the left: always false. -/
def jsGe (a : ReopenCounter) (n : Nat) : Bool :=
  match a with
  | none => false
  | some v => decide (v ≥ n)

/-- JS increment of the counter: undefined and NaN stay NaN. -/
def jsIncr : ReopenCounter → ReopenCounter
  | none => none
  | some v => some (v + 1)

/-- What the socket error handler does on one ECONNREFUSED error. -/
inductive RefusedOutcome where
  | scheduledReopen
  | surfacedError
deriving DecidableEq, Repr

/-- Connection socket error handler for ECONNREFUSED (lines 133-146): surface the
error if reopenAttempts >= maxReopenAttempts, else emit Closed, increment the
counter and schedule _openConnection after reopenDelay. -/
def onRefused (maxReopenAttempts : Nat) (c : ReopenCounter) : RefusedOutcome × ReopenCounter :=
  if jsGe c maxReopenAttempts then (.surfacedError, c)
  else (.scheduledReopen, jsIncr c)

/-- Outcomes and final counter after k consecutive ECONNREFUSED errors. -/
def runRefused (maxReopenAttempts : Nat) (c : ReopenCounter) :
    Nat → List RefusedOutcome × ReopenCounter
  | 0 => ([], c)
  | Nat.succ k =>
    let (o, c1) := onRefused maxReopenAttempts c
    let (os, c2) := runRefused maxReopenAttempts c1 k
    (o :: os, c2)

-- endregion

-- region Client pool (src/http/Client)

/-- A pooled connection as the selection logic sees it: an identity and whether
isAvailable() currently holds (Connected and the sender accepts more requests). -/
structure PoolConn where
  id : Nat
  available : Bool
deriving DecidableEq, Repr

/-- Per-key pool state: pending connection futures and ready connections, in order. -/
structure KeyState where
  pending : List PoolConn := []
  ready : List PoolConn := []
deriving DecidableEq, Repr

/-- What Client._getConnection resolves to for one request. -/
inductive GetOutcome where
  | conn (c : PoolConn)
  | newConn
  | maxConnectionsError
deriving DecidableEq, Repr

/-- Client._createConnection at the cap (lines 153-158): when pending + ready has
reached maxConnectionsByHost, selectConnectionIn returns the element at the random
index r of the concatenation of pending and ready; below the cap a new pending
connection is created. -/
def createConnection (maxConnectionsByHost : Nat) (s : KeyState) (r : Nat) :
    Option GetOutcome × KeyState :=
  if s.pending.length + s.ready.length ≥ maxConnectionsByHost then
    match (s.pending ++ s.ready).get? r with
    | some c => (some (.conn c), s)
    | none => (none, s)
  else
    (some .newConn, { s with pending := s.pending ++ [{ id := 0, available := false }] })

/-- Client._getConnection (lines 232-260): await _createConnection and return its
result when truthy; only when it is falsy filter the available ready connections and
throw the max-connections error if none is available while the ready count has
reached the cap. -/
def getConnection (maxConnectionsByHost : Nat) (s : KeyState) (r : Nat) :
    GetOutcome × KeyState :=
  match createConnection maxConnectionsByHost s r with
  | (some out, s1) => (out, s1)
  | (none, s1) =>
    let avail := s1.ready.filter (fun c => c.available)
    if avail.isEmpty && s1.ready.length ≥ maxConnectionsByHost then
      (.maxConnectionsError, s1)
    else
      match avail.get? r with
      | some c => (.conn c, s1)
      | none => (.maxConnectionsError, s1)

/-- Queue state of the Pipeline sending strategy of one connection
(src/http/1.1/strategies/Pipeline). -/
structure PipeState where
  pendingCount : Nat := 0
  maxRequests : Nat := 1000
  locked : Bool := false
deriving DecidableEq, Repr

/-- Pipeline.acceptsMoreRequests: not locked, and the queue below maxRequests
(zero disables the limit). Through Sender.acceptsMoreRequests this is the second
conjunct of Connection.isAvailable. -/
def acceptsMoreRequests (p : PipeState) : Bool :=
  !p.locked && (p.maxRequests == 0 || p.pendingCount < p.maxRequests)

/-- Result of Pipeline.scheduleSend for the entry guard and the queue push. -/
inductive ScheduleResult where
  | overflowError
  | enqueued (newCount : Nat)
deriving DecidableEq, Repr

/-- Pipeline.scheduleSend guard (lines 214-220) and push (line 276): throws the
pipeline-overflow error when maxRequests is positive and the queue is full,
otherwise the entry is appended; the lock flag is not consulted here. -/
def scheduleSend (p : PipeState) : ScheduleResult :=
  if p.maxRequests > 0 && p.pendingCount ≥ p.maxRequests then .overflowError
  else .enqueued (p.pendingCount + 1)

/-- Lifecycle states of a Connection. -/
inductive ConnLifecycle where
  | connecting
  | connected
  | closed
deriving DecidableEq, Repr

/-- How an attempted send on a picked connection ends at the caller: Connection.send
fails synchronously outside the Connected state; otherwise Sender.send delegates to
Pipeline.scheduleSend, whose overflow throw reaches the request callback through
the promise catch of Client.request. -/
inductive SendResult where
  | stateError (st : ConnLifecycle)
  | overflowError
  | enqueued (newCount : Nat)
deriving DecidableEq, Repr

/-- Connection.send (lines 169-192) followed by Sender.send and
Pipeline.scheduleSend, for a connection whose pipeline state is p. -/
def connectionSend (st : ConnLifecycle) (p : PipeState) : SendResult :=
  if st ≠ .connected then .stateError st
  else
    match scheduleSend p with
    | .overflowError => .overflowError
    | .enqueued n => .enqueued n

/-- Client-level state for close and request (src/http/Client lines 274-318): the
per-key connection lists, the closed flag and the idle-watcher interval. -/
structure ClientState where
  closed : Bool := false
  conns : List (String × List Nat) := []
  watcherRunning : Bool := true
deriving DecidableEq, Repr

/-- Keyed lookup in the connections map. -/
def connsGet? : List (String × List Nat) → String → Option (List Nat)
  | [], _ => none
  | (k0, v0) :: rest, k => if k0 = k then some v0 else connsGet? rest k

/-- Keyed removal in the connections map. -/
def connsDel : List (String × List Nat) → String → List (String × List Nat)
  | [], _ => []
  | (k0, v0) :: rest, k => if k0 = k then rest else (k0, v0) :: connsDel rest k

/-- Client.close(host, port) with both arguments given (lines 293-307): the closed
flag is set first, unconditionally; then only the named key has its connections
closed and is removed; the watcher interval is not cleared on this path. -/
def clientCloseKey (s : ClientState) (key : String) : ClientState × List Nat :=
  let s := { s with closed := true }
  match connsGet? s.conns key with
  | none => (s, [])
  | some cs => ({ s with conns := connsDel s.conns key }, cs)

/-- The synchronous guard of Client.request (lines 274-277). -/
inductive RequestOutcome where
  | clientClosedError
  | forwarded
deriving DecidableEq, Repr

/-- Client.request entry guard: throws the client-closed error when the closed flag
is set, otherwise proceeds to connection selection. -/
def clientRequest (s : ClientState) : RequestOutcome :=
  if s.closed then .clientClosedError else .forwarded

-- endregion

-- region Request decoding (src/utils/uwsHelpers decodeRequest, UWSProxy.#handleRequest)

/-- decodeRequest lines 41-42: client.remoteAddress is the x-forwarded-for request
header when that string is truthy (present and non-empty), else the decoded socket
remote address from the response handle. -/
def decodeRemoteAddress (xForwardedFor : Option String) (socketAddr : String) : String :=
  match xForwardedFor with
  | some v => if v = "" then socketAddr else v
  | none => socketAddr

/-- The x-forwarded-for rewrite of UWSProxy.#handleRequest (lines 588-593): append
the proxy value to the existing header, comma separated when one was present and
truthy. -/
def appendForwarded (old : Option String) (v : String) : String :=
  let cur := old.getD ""
  cur ++ (if cur = "" then "" else ",") ++ v

/-- Outgoing x-forwarded-for header for an inbound request, combining decodeRequest
with the handleRequest rewrite, where the appended proxy value is the decoded
client.remoteAddress. -/
def outgoingForwardedFor (xForwardedFor : Option String) (socketAddr : String) : String :=
  appendForwarded xForwardedFor (decodeRemoteAddress xForwardedFor socketAddr)

-- endregion

-- region Concrete inputs and trace projections

/-- Literal byte stream of the fixed single-response scenario. -/
def scenario1 : List Nat :=
  strBytes "HTTP/1.1 200 OK\r\nContent-Type: text/plain\r\nContent-Length: 12\r\n\r\nHello World!"

/-- Header object the parser has built when it finishes the scenario-1 header block. -/
def scenario1Headers : HObj :=
  [(strBytes "content-type", .str (strBytes "text/plain")),
   (strBytes "content-length", .num (some 12))]

/-- Event sequence the claim asserts for scenario 1: headers first, then
body_read_mode, then the terminating body chunk. -/
def claimedScenario1Trace : List PEvent :=
  [.headersEvt scenario1Headers (some 200) (strBytes "OK") (strBytes "HTTP/1.1"),
   .readMode .fixed (some 12),
   .bodyChunk (strBytes "Hello World!") true]

/-- Minimal fixed response with a two-byte body, for split comparisons. -/
def tinyFixed : List Nat :=
  strBytes "HTTP/1.1 200 OK\r\nContent-Length: 2\r\n\r\nAB"

/-- Response head that puts the parser in UNTIL_CLOSE mode: no content-length and no
transfer-encoding header. -/
def untilCloseHead : List Nat := strBytes "HTTP/1.1 200 M\r\nx: y\r\n\r\n"

/-- Events of a trace other than body chunks, in order. -/
def nonChunkEvents (evs : List PEvent) : List PEvent :=
  evs.filter (fun e => match e with | .bodyChunk _ _ => false | _ => true)

/-- Concatenation of all body-chunk payloads of a trace. -/
def bodyConcat (evs : List PEvent) : List Nat :=
  evs.foldl (fun acc e => match e with | .bodyChunk b _ => acc ++ b | _ => acc) []

/-- Whether a trace ends with a body chunk flagged as last. -/
def endsWithFinalChunk (evs : List PEvent) : Bool :=
  match evs.getLast? with
  | some (.bodyChunk _ true) => true
  | _ => false

/-- Whether splitting a stream at k and feeding the two pieces in order agrees with
the unsplit feed on the non-chunk events, the concatenated body bytes, and final
chunk termination. -/
def splitAgreesAt (stream : List Nat) (k : Nat) : Bool :=
  let base := (feed PState.initial stream).2
  let t := (feedAll PState.initial [stream.take k, stream.drop k]).2
  decide (nonChunkEvents t = nonChunkEvents base)
    && decide (bodyConcat t = bodyConcat base)
    && endsWithFinalChunk t

/-- Pool state of one key with a single busy ready connection. -/
def busyKeyState : KeyState := { pending := [], ready := [{ id := 7, available := false }] }

/-- Pool state of one key with two busy ready connections. -/
def twoBusyKeyState : KeyState :=
  { pending := [], ready := [{ id := 3, available := false }, { id := 9, available := false }] }

/-- Client holding connections to two distinct keys with the idle watcher running. -/
def twoKeyClient : ClientState :=
  { closed := false, conns := [("h1:81", [0]), ("h2:82", [1])], watcherRunning := true }

-- endregion

-- region Claim theorems

/-- C1: the claim says a backend failure with code CONN_RESET, CONN_ABORTED or
CONN_REFUSED on an unwritten reply makes the proxy deliver a 503 Service
Unavailable response. On the code, #buildErrorResponse leaves the top-level status
undefined (the 503 line sits in headers.status), #tryToSendErrorResponse overwrites
that entry with the undefined status via Object.assign, writeHeaders throws calling
toString on undefined and the throw is swallowed, so no status line is ever
written: the edge delivers its default 200 OK around the diagnostic body. -/
theorem connErrorResponseLosesStatus :
    (deliverErrorResponse 300000 .econnreset).status = none
    ∧ (deliverErrorResponse 300000 .econnaborted).status = none
    ∧ (deliverErrorResponse 300000 .econnrefused).status = none
    ∧ (deliverErrorResponse 300000 .econnreset).ended =
        some "Unable to forward the request to the server (ECONNRESET)."
    ∧ (buildErrorResponse 300000 .econnreset).headers =
        [("status", .str "503 Service Unavailable")] := by
  decide

/-- C2: the claim says every request with a body source gets its body streamed, in
particular one carrying content-length N with N greater than 0 and no
transfer-encoding header. Sender._stream returns before subscribing to the body
source whenever the transfer-encoding header is absent, so such a request never has
its body written to the backend socket. -/
theorem contentLengthOnlyBodyNotStreamed :
    streamSubscribes
      { hasBody := true, contentLength := some (.num 5), hasTransferEncoding := false } = false
    ∧ streamSubscribes
      { hasBody := true, contentLength := none, hasTransferEncoding := true } = true := by
  decide

/-- C3 counterexample: with maxConnectionsByHost = 1 and a single busy ready
connection (cap reached, nothing available), the next request does not fail with
the max-connections error: _createConnection returns the busy connection itself and
the request is carried on it, with the pool state unchanged. -/
theorem capReachedPicksBusyConnection :
    getConnection 1 busyKeyState 0 = (.conn { id := 7, available := false }, busyKeyState)
    ∧ (getConnection 1 busyKeyState 0).1 ≠ .maxConnectionsError := by
  decide

/-- Helper for C3: the selection step at the cap, in isolation. Once the
pending-plus-ready count of a key has reached maxConnectionsByHost, _getConnection
returns the connection at the random index r of pending ++ ready, available or
not, with the pool state unchanged. -/
theorem getConnectionAtCap (max r : Nat) (s : KeyState)
    (hcap : s.pending.length + s.ready.length ≥ max)
    (hr : r < (s.pending ++ s.ready).length) :
    getConnection max s r = (.conn ((s.pending ++ s.ready).get ⟨r, hr⟩), s) := by
  unfold getConnection createConnection
  rw [if_pos hcap, List.get?_eq_get hr]

/-- C3 amended: once the pending-plus-ready count of a key has reached
maxConnectionsByHost, _getConnection never raises the max-connections error and
creates no new connection; it returns the connection at the random index of
pending ++ ready, available or not, and the send is attempted on that connection.
When the picked connection is Connected but unavailable because its pipeline queue
is full (not UntilClose-locked), Pipeline.scheduleSend throws the
pipeline-overflow error, which Client.request passes to the request callback: the
request fails with the pipeline-overflow error, not with the max-connections
error. -/
theorem capReachedOverflowNotMaxConnections (max r : Nat) (s : KeyState) (p : PipeState)
    (hcap : s.pending.length + s.ready.length ≥ max)
    (hr : r < (s.pending ++ s.ready).length)
    (hnl : p.locked = false)
    (hbusy : acceptsMoreRequests p = false) :
    getConnection max s r = (.conn ((s.pending ++ s.ready).get ⟨r, hr⟩), s)
    ∧ connectionSend .connected p = .overflowError := by
  refine ⟨getConnectionAtCap max r s hcap hr, ?_⟩
  have h0 : p.maxRequests ≠ 0 := by
    intro h
    simp [acceptsMoreRequests, hnl, h] at hbusy
  have h2 : ¬ p.pendingCount < p.maxRequests := by
    intro h
    simp [acceptsMoreRequests, hnl, h] at hbusy
  have hpos : 0 < p.maxRequests := Nat.pos_of_ne_zero h0
  have hge : p.maxRequests ≤ p.pendingCount := Nat.le_of_not_lt h2
  simp [connectionSend, scheduleSend, hpos, hge]

/-- C3 witness: the amended theorem applied to a two-connection pool at its cap with
random index 1 and a picked connection whose pipeline is full at 5 of 5. -/
theorem capReachedOverflowNotMaxConnectionsWitness :
    getConnection 2 twoBusyKeyState 1 = (.conn { id := 9, available := false }, twoBusyKeyState)
    ∧ connectionSend .connected { pendingCount := 5, maxRequests := 5, locked := false } =
        .overflowError := by
  exact capReachedOverflowNotMaxConnections 2 1 twoBusyKeyState
    { pendingCount := 5, maxRequests := 5, locked := false }
    (by decide) (by decide) rfl (by decide)

/-- C4: the claim says ECONNREFUSED reconnections are capped by maxReopenAttempts,
in particular for a connection that never reached the Connected state. On the code,
_reopenAttempts is only initialised on a successful connect, so for a
never-connected connection the counter is undefined, the guard
reopenAttempts greater-or-equal maxReopenAttempts compares undefined (then NaN) and
is always false: every ECONNREFUSED schedules another reopen and the error is never
surfaced, for any number of consecutive failures. -/
theorem neverConnectedRefusedRetriesForever (maxReopenAttempts k : Nat) :
    runRefused maxReopenAttempts none k = (List.replicate k .scheduledReopen, none) := by
  induction k with
  | zero => rfl
  | succ n ih =>
    simp [runRefused, onRefused, jsGe, jsIncr, ih, List.replicate_succ]

/-- C5: the claim says that in UntilClose mode the body bytes of a fed slice are
forwarded exactly once. On the code, the UNTIL_CLOSE branch emits the whole fed
slice once per body byte position and never advances past the slice, so feeding the
three-byte slice abc after an UntilClose header block emits body_chunk(abc, false)
three times and the concatenated payloads are abcabcabc, not abc. -/
theorem untilCloseSliceDuplicated :
    (feed (feed PState.initial untilCloseHead).1 (strBytes "abc")).2 =
      [.bodyChunk (strBytes "abc") false,
       .bodyChunk (strBytes "abc") false,
       .bodyChunk (strBytes "abc") false]
    ∧ bodyConcat (feed (feed PState.initial untilCloseHead).1 (strBytes "abc")).2 ≠
        strBytes "abc" := by
  decide

/-- C6 counterexample: feeding the literal scenario-1 bytes to a fresh parser does
not produce the claimed order headers, body_read_mode, body_chunk. -/
theorem scenario1ClaimedOrderWrong :
    (feed PState.initial scenario1).2 ≠ claimedScenario1Trace := by
  decide

/-- C6 amended: the scenario-1 feed emits exactly body_read_mode(Fixed, 12) first,
then the headers event with status 200, message OK, version HTTP/1.1 and the parsed
header map, then body_chunk(Hello World!, true); in particular no error event. -/
theorem scenario1TraceOrder :
    (feed PState.initial scenario1).2 =
      [.readMode .fixed (some 12),
       .headersEvt scenario1Headers (some 200) (strBytes "OK") (strBytes "HTTP/1.1"),
       .bodyChunk (strBytes "Hello World!") true] := by
  decide

/-- C7 counterexample: the parser is not slicing-invariant. Splitting the tiny fixed
response inside its body produces a different event sequence (two body chunks
instead of one) than feeding it whole. -/
theorem slicingChangesEventSequence :
    (feedAll PState.initial [tinyFixed]).2 ≠
      (feedAll PState.initial [tinyFixed.take 39, tinyFixed.drop 39]).2 := by
  decide

set_option maxHeartbeats 8000000

set_option maxRecDepth 100000

/-- C7 amended: literal event-sequence equality across splits fails (body-chunk
granularity differs, and after a completed fixed body the loop even skips one byte
of a following pipelined response). What does hold, checked here for the scenario-1
stream across every split into two contiguous pieces: the non-chunk events are
identical to the unsplit feed, the concatenated body payloads are identical, and
the trace ends with a chunk flagged last. -/
theorem scenario1SplitsAgree :
    (List.range (scenario1.length + 1)).all (splitAgreesAt scenario1) = true := by
  decide

/-- C8: the claim says the FIFO never exceeds maxStackedBuffers and that, when a
chunk would exceed the bound, a 504 Gateway Timeout is corked-and-ended on the edge
reply-handle and no further chunks are accepted. On the code, with
maxStackedBuffers = 1 and a socket that never accepts a write: chunks are stacked
before any capacity check, so the FIFO reaches length 2; the trigger does run the
504 block, but its cork callback throws calling body.setStatus — a method the uWS
reply handle does not have (the repo writes statuses with writeStatus) — before
body.end, so no status and no body are ever written, and the next delivered chunk
is still stacked. -/
theorem senderOverflowNo504Delivered :
    (senderRun 1 [strBytes "x", strBytes "x", strBytes "x"]).1.stackedBuffers.length = 2
    ∧ ¬ (senderRun 1 [strBytes "x", strBytes "x", strBytes "x"]).1.stackedBuffers.length ≤ 1
    ∧ (senderRun 1 [strBytes "x", strBytes "x"]).2.corkCalls = 1
    ∧ (senderRun 1 [strBytes "x", strBytes "x"]).2.setStatusThrown = 1
    ∧ (senderRun 1 [strBytes "x", strBytes "x"]).2.statusWritten = none
    ∧ (senderRun 1 [strBytes "x", strBytes "x"]).2.ended = none
    ∧ uwsReplyHas "setStatus" = false
    ∧ uwsReplyHas "writeStatus" = true := by
  decide

/-- C9: the claim says close(h1, p1) leaves the rest of the client usable. On the
code, Client.close sets the closed flag before branching on its arguments, so after
a targeted close of key h1:81 only that key is removed and the watcher keeps
running, but the pool is marked closed and a subsequent request for key h2:82 is
rejected synchronously with the client-closed error. -/
theorem targetedCloseMarksClientClosed :
    (clientCloseKey twoKeyClient "h1:81").1 =
      { closed := true, conns := [("h2:82", [1])], watcherRunning := true }
    ∧ clientRequest (clientCloseKey twoKeyClient "h1:81").1 = .clientClosedError := by
  decide

/-- C10 counterexample: an inbound request carrying an x-forwarded-for header with
the empty value does not get its remoteAddress from that header: JS truthiness
makes the empty string falsy, so the socket remote address is used although the
header is present. -/
theorem emptyForwardedForFallsBack :
    decodeRemoteAddress (some "") "192.0.2.7" = "192.0.2.7"
    ∧ decodeRemoteAddress (some "") "192.0.2.7" ≠ "" := by
  decide

/-- C10 amended: whenever the inbound x-forwarded-for value is non-empty, the
decoded remoteAddress is that client-supplied value and the outgoing
x-forwarded-for appends it to itself; the socket remote address is used exactly
when the header is absent or empty. -/
theorem nonEmptyForwardedForTrusted (v socketAddr : String) (hv : v ≠ "") :
    decodeRemoteAddress (some v) socketAddr = v
    ∧ outgoingForwardedFor (some v) socketAddr = v ++ "," ++ v
    ∧ decodeRemoteAddress none socketAddr = socketAddr := by
  refine ⟨?_, ?_, rfl⟩
  · simp [decodeRemoteAddress, hv]
  · simp [outgoingForwardedFor, appendForwarded, decodeRemoteAddress, Option.getD, hv]

/-- C10 witness: the amended theorem applied to a spoofed client-supplied address. -/
theorem nonEmptyForwardedForTrustedWitness :
    decodeRemoteAddress (some "203.0.113.5") "192.0.2.7" = "203.0.113.5"
    ∧ outgoingForwardedFor (some "203.0.113.5") "192.0.2.7" = "203.0.113.5,203.0.113.5"
    ∧ decodeRemoteAddress none "192.0.2.7" = "192.0.2.7" := by
  exact nonEmptyForwardedForTrusted "203.0.113.5" "192.0.2.7" (by decide)

-- endregion

end UwsProxy
